import Mathlib

/-!
Verification development for the ArchLens diagram parsing and
architecture-inference engine.

The Python source is shallowly embedded: each Python function used by the
specification claims is translated into a Lean definition of the same name
(`identify_aws_service_type`, `parse_uploaded_xml`, `DrawIOParser.parse`,
`create_fallback_analysis`, `calculate_basic_security_score`, ...).
Strings are Lean `String`s, Python floats are modeled as `ℚ`, fallible code
returns `Except`/`Option`, and the external XML front-end
(`xml.etree.ElementTree.fromstring`) is a parameter producing an `Xml` tree.
-/

/-! ## Python string primitives -/

/-- Model of Python `str.lower` on a single character (ASCII range, which
covers every keyword in the source tables). -/
def lowerChar (c : Char) : Char :=
  if 65 ≤ c.toNat ∧ c.toNat ≤ 90 then Char.ofNat (c.toNat + 32) else c

/-- Model of Python `str.upper` on a single character (ASCII range). -/
def upperChar (c : Char) : Char :=
  if 97 ≤ c.toNat ∧ c.toNat ≤ 122 then Char.ofNat (c.toNat - 32) else c

/-- Model of Python `str.lower`. -/
def lowerStr (s : String) : String := ⟨s.data.map lowerChar⟩

/-- Model of Python `str.upper`. -/
def upperStr (s : String) : String := ⟨s.data.map upperChar⟩

/-- Does list `hay` start with `needle`? -/
def listStartsWith : List Char → List Char → Bool
  | [], _ => true
  | _ :: _, [] => false
  | a :: as, b :: bs => a == b && listStartsWith as bs

/-- Does `needle` occur as a contiguous run inside `hay`? -/
def listHasSub (needle : List Char) : List Char → Bool
  | [] => listStartsWith needle []
  | c :: t => listStartsWith needle (c :: t) || listHasSub needle t

/-- Model of the Python substring test `needle in hay`. -/
def pyIn (needle hay : String) : Bool := listHasSub needle.data hay.data

/-- Characters treated as whitespace by Python `str.strip()`. -/
def isPySpace (c : Char) : Bool :=
  c == ' ' || c == '\t' || c == '\n' || c == '\r' || c == '\x0b' || c == '\x0c'

/-- Model of Python `str.strip()`. -/
def pyStrip (s : String) : String :=
  ⟨((s.data.dropWhile isPySpace).reverse.dropWhile isPySpace).reverse⟩

/-- Accumulate a decimal digit list into a natural number. -/
def natOfDigits : Nat → List Char → Nat
  | acc, [] => acc
  | acc, c :: cs => natOfDigits (acc * 10 + (c.toNat - 48)) cs

/-- Model of Python `float(s)` restricted to plain decimal literals
(optional sign, digits, optional fractional part); exponent, `inf` and
`nan` forms are not modeled because no claim exercises them.  Returns
`none` exactly when Python would raise `ValueError`. -/
def pyFloat (s : String) : Option ℚ :=
  let cs := ((s.data.dropWhile isPySpace).reverse.dropWhile isPySpace).reverse
  let signed : ℚ × List Char :=
    match cs with
    | '-' :: rest => (-1, rest)
    | '+' :: rest => (1, rest)
    | _ => (1, cs)
  let sign := signed.1
  let body := signed.2
  let intPart := body.takeWhile Char.isDigit
  let rest := body.dropWhile Char.isDigit
  match rest with
  | [] => if intPart.isEmpty then none else some (sign * natOfDigits 0 intPart)
  | '.' :: frac =>
      if frac.all Char.isDigit && !(intPart.isEmpty && frac.isEmpty) then
        some (sign * ((natOfDigits 0 intPart : ℚ) +
          (natOfDigits 0 frac : ℚ) / (10 ^ frac.length)))
      else none
  | _ => none

/-- Join a list of strings with a separator, as Python `sep.join(xs)`. -/
def joinSep (sep : String) : List String → String
  | [] => ""
  | [x] => x
  | x :: y :: xs => x ++ sep ++ joinSep sep (y :: xs)

/-- Keep the first occurrence of each element, preserving first-seen order
(Python's dict-insertion-order grouping idiom). -/
def firstSeen : List String → List String :=
  go []
where
  go : List String → List String → List String
  | _, [] => []
  | seen, x :: rest =>
      if seen.contains x then go seen rest else x :: go (x :: seen) rest

/-! ## Service Classifier
Embedding of `identify_aws_service_type(value, style)` from
`backend_clean/lightweight_handler.py` (lines 554-724).  The Python
`if/elif` chain of `any(keyword in value_lower for keyword in [...])`
tests is represented as an ordered table of (keyword list, service kind)
entries; the source's category-comment structure is kept as eight group
lists, flattened in source order. -/

/-- One classifier group: an ordered list of (keywords, returned kind). -/
abbrev KwGroup := List (List String × String)

/-- Compute Services group. -/
def computeGroup : KwGroup :=
  [(["ec2", "instance", "server", "virtual machine", "vm"], "EC2"),
   (["lambda", "function", "serverless"], "Lambda"),
   (["ecs", "container service", "docker"], "ECS"),
   (["eks", "kubernetes", "k8s"], "EKS"),
   (["fargate"], "Fargate"),
   (["batch"], "AWS Batch"),
   (["lightsail"], "Lightsail")]

/-- Storage Services group. -/
def storageGroup : KwGroup :=
  [(["s3", "bucket", "object storage"], "S3"),
   (["ebs", "elastic block"], "EBS"),
   (["efs", "elastic file"], "EFS"),
   (["fsx"], "FSx"),
   (["glacier", "archive"], "S3 Glacier"),
   (["storage gateway"], "Storage Gateway")]

/-- Database Services group. -/
def databaseGroup : KwGroup :=
  [(["rds", "relational database", "mysql", "postgres", "oracle", "sql server"], "RDS"),
   (["dynamodb", "nosql", "document db"], "DynamoDB"),
   (["aurora"], "Aurora"),
   (["redshift", "data warehouse"], "Redshift"),
   (["documentdb", "mongodb"], "DocumentDB"),
   (["neptune", "graph"], "Neptune"),
   (["elasticache", "redis", "memcached"], "ElastiCache")]

/-- Networking Services group. -/
def networkingGroup : KwGroup :=
  [(["vpc", "virtual private cloud"], "VPC"),
   (["subnet", "private subnet", "public subnet"], "Subnet"),
   (["load balancer", "alb", "elb", "nlb", "application load balancer", "network load balancer"], "Load Balancer"),
   (["cloudfront", "cdn", "content delivery"], "CloudFront"),
   (["api gateway", "rest api", "graphql"], "API Gateway"),
   (["route 53", "dns", "domain"], "Route 53"),
   (["vpc endpoint", "endpoint"], "VPC Endpoint"),
   (["nat gateway", "nat"], "NAT Gateway"),
   (["internet gateway", "igw"], "Internet Gateway"),
   (["transit gateway"], "Transit Gateway"),
   (["direct connect"], "Direct Connect")]

/-- Security Services group. -/
def securityGroup : KwGroup :=
  [(["iam", "identity", "access management", "role", "policy", "user"], "IAM"),
   (["security group", "sg"], "Security Group"),
   (["nacl", "network acl"], "Network ACL"),
   (["kms", "key management"], "KMS"),
   (["secrets manager", "secret"], "Secrets Manager"),
   (["certificate manager", "acm", "ssl", "tls"], "Certificate Manager"),
   (["waf", "web application firewall"], "WAF"),
   (["shield", "ddos"], "Shield"),
   (["guardduty"], "GuardDuty"),
   (["security hub"], "Security Hub"),
   (["inspector"], "Inspector"),
   (["macie"], "Macie")]

/-- Monitoring and Management group. -/
def managementGroup : KwGroup :=
  [(["cloudwatch", "monitoring", "metrics", "logs"], "CloudWatch"),
   (["cloudtrail", "audit", "logging"], "CloudTrail"),
   (["config", "compliance"], "Config"),
   (["systems manager", "ssm"], "Systems Manager"),
   (["x-ray", "tracing"], "X-Ray"),
   (["cloudformation", "cfn", "stack"], "CloudFormation")]

/-- Application Services group. -/
def applicationGroup : KwGroup :=
  [(["sns", "notification"], "SNS"),
   (["sqs", "queue"], "SQS"),
   (["eventbridge", "event bus"], "EventBridge"),
   (["step functions", "workflow"], "Step Functions"),
   (["kinesis", "streaming"], "Kinesis"),
   (["ses", "email"], "SES")]

/-- Analytics and ML group. -/
def analyticsGroup : KwGroup :=
  [(["athena", "query"], "Athena"),
   (["glue", "etl"], "Glue"),
   (["emr", "hadoop", "spark"], "EMR"),
   (["sagemaker", "machine learning", "ml"], "SageMaker"),
   (["bedrock", "ai"], "Bedrock")]

/-- The eight category groups in the order they appear in the source
`if/elif` chain: compute, storage, database, networking, security,
management/monitoring, application integration, analytics/ML. -/
def serviceGroups : List KwGroup :=
  [computeGroup, storageGroup, databaseGroup, networkingGroup,
   securityGroup, managementGroup, applicationGroup, analyticsGroup]

/-- Concatenate a list of lists (kept as an explicit helper). -/
def joinAll : List (List α) → List α
  | [] => []
  | x :: xs => x ++ joinAll xs

/-- The full ordered keyword table, i.e. the source's whole `if/elif`
chain flattened. -/
def serviceTable : List (List String × String) := joinAll serviceGroups

/-- First-match-wins lookup: find the first entry one of whose keywords is
a substring of the (already lowercased) label. -/
def tableMatch (vl : String) : List (List String × String) → Option String
  | [] => none
  | (kws, kind) :: rest =>
      if kws.any (fun k => pyIn k vl) then some kind else tableMatch vl rest

/-- Embedding of `identify_aws_service_type(value, style)`
(`backend_clean/lightweight_handler.py:554`): lowercase both inputs, run
the keyword chain on the label, and fall back to the generic
`AWS Service` sentinel when `aws` occurs in the lowered style or `amazon`
occurs in the lowered label, else `Unknown`. -/
def identify_aws_service_type (value style : String) : String :=
  let value_lower := lowerStr value
  let style_lower := lowerStr style
  match tableMatch value_lower serviceTable with
  | some kind => kind
  | none =>
      if pyIn "aws" style_lower || pyIn "amazon" value_lower then "AWS Service"
      else "Unknown"

/-- Does any entry of a group match the lowered label? -/
def groupMatches (g : KwGroup) (vl : String) : Bool :=
  g.any (fun e => e.1.any (fun k => pyIn k vl))

/-! ## XML document model
An already-parsed XML element tree, as handed to the extractors by
`xml.etree.ElementTree.fromstring`.  The front-end parser itself is
external (C library); functions that depend on it take a
`fromstring : String → Except String Xml` argument, where an `error`
result stands for `ET.ParseError` with its message. -/

/-- An XML element: tag, attributes and child elements. -/
inductive Xml where
  | elem (tag : String) (attrs : List (String × String)) (children : List Xml)

/-- Tag of an element. -/
def Xml.tag : Xml → String
  | .elem t _ _ => t

/-- Attribute list of an element. -/
def Xml.attrs : Xml → List (String × String)
  | .elem _ a _ => a

/-- Child elements. -/
def Xml.children : Xml → List Xml
  | .elem _ _ c => c

/-- Model of `element.get(name)`: first attribute with that name, if any. -/
def Xml.getAttr (x : Xml) (name : String) : Option String :=
  (x.attrs.find? (fun p => p.1 == name)).map Prod.snd

/-- Model of `element.get(name, default)`. -/
def pyGetD (x : Xml) (name default : String) : String :=
  (x.getAttr name).getD default

mutual

/-- The element and all its descendants in document order: the sequence
`element.iter()` walks. -/
def Xml.subtree : Xml → List Xml
  | .elem t a cs => .elem t a cs :: Xml.subtreeList cs

/-- Subtrees of a list of elements, concatenated in order. -/
def Xml.subtreeList : List Xml → List Xml
  | [] => []
  | x :: xs => Xml.subtree x ++ Xml.subtreeList xs

end

/-- All proper descendants of an element, in document order: the sequence
`root.findall('.//tag')` filters (the root itself is excluded). -/
def Xml.descendants (x : Xml) : List Xml := Xml.subtreeList x.children

/-! ## Diagram Graph Extractor (lightweight variant)
Embedding of `parse_uploaded_xml(xml_content)` from
`backend_clean/lightweight_handler.py` (lines 496-552).  It walks every
`mxCell` element (`root.iter('mxCell')`), collecting components (cells
with a non-empty `value` whose id is not one of the reserved container
ids `0`/`1`) and connections (cells carrying truthy `source` and
`target` attributes).  The Python body after a successful
`ET.fromstring` is total, so the `except` branch that would report a
`parse_error` is unreachable once a tree is in hand; the embedding takes
the parsed tree and records `parse_error := none`. -/

/-- One extracted component (an AWS service candidate). -/
structure Component where
  id : Option String
  name : String
  service_type : String
  style : String
deriving Repr, DecidableEq

/-- One extracted connection. -/
structure LWConnection where
  source : String
  target : String
  type : String
deriving Repr, DecidableEq

/-- Result dictionary of `parse_uploaded_xml`. -/
structure LWParseResult where
  components : List Component
  connections : List LWConnection
  component_count : Nat
  connection_count : Nat
  has_content : Bool
  parse_error : Option String
deriving Repr

/-- Python truthiness of an optional string attribute (`None` and the
empty string are falsy). -/
def truthy : Option String → Bool
  | none => false
  | some s => s != ""

/-- The `mxCell` elements the loop `for cell in root.iter('mxCell')`
visits, in document order. -/
def lwCells (root : Xml) : List Xml :=
  root.subtree.filter (fun c => c.tag == "mxCell")

/-- Component extraction for one cell: the body of
`if value and cell_id not in ['0', '1']`. -/
def mkComponent (cell : Xml) : Option Component :=
  let cell_id := cell.getAttr "id"
  let value := pyGetD cell "value" ""
  let style := pyGetD cell "style" ""
  if value != "" && !(cell_id == some "0" || cell_id == some "1") then
    some { id := cell_id, name := value,
           service_type := identify_aws_service_type value style,
           style := style }
  else none

/-- Connection extraction for one cell: the body of
`if source and target`. -/
def mkConnection (cell : Xml) : Option LWConnection :=
  let source := cell.getAttr "source"
  let target := cell.getAttr "target"
  if truthy source && truthy target then
    some { source := source.getD "", target := target.getD "",
           type := "connection" }
  else none

/-- Embedding of `parse_uploaded_xml` applied to the parsed tree. -/
def parse_uploaded_xml (root : Xml) : LWParseResult :=
  let components := (lwCells root).filterMap mkComponent
  let connections := (lwCells root).filterMap mkConnection
  { components := components
    connections := connections
    component_count := components.length
    connection_count := connections.length
    has_content := !components.isEmpty
    parse_error := none }

/-! ## Diagram Graph Extractor (DrawIOParser variant)
Embedding of `DrawIOParser` from `backend/src/utils/xml_parser.py`.  Its
`parse` wraps the XML front-end: an `ET.ParseError` is re-raised as
`ValueError("Invalid XML format: ...")`, any other exception as
`ValueError("Failed to parse diagram: ...")`.  The only fallible step
after a successful `fromstring` is `float(...)` on geometry attributes
inside `_extract_aws_services`. -/

/-- Bounding box of a shape (`mxGeometry` x/y/width/height). -/
structure Position where
  x : ℚ
  y : ℚ
  width : ℚ
  height : ℚ
deriving Repr, DecidableEq

/-- One extracted AWS service of `DrawIOParser`. -/
structure Service where
  id : Option String
  type : String
  label : String
  position : Position
  style : String
  security_relevant : Bool
deriving Repr, DecidableEq

/-- One extracted connection of `DrawIOParser`. -/
structure Connection where
  id : Option String
  source : String
  target : String
  label : String
  style : String
deriving Repr, DecidableEq

/-- The `diagram_info` dictionary. -/
structure DiagramInfo where
  title : String
  pages : Nat
  total_elements : Nat
deriving Repr, DecidableEq

/-- The `security_analysis` dictionary produced by
`_analyze_security_configurations`. -/
structure SecAnalysis where
  public_services : List Service
  unencrypted_services : List Service
  missing_security_groups : List Service
  internet_facing : List Service
  security_service_count : Nat
deriving Repr

/-- The dictionary returned by `DrawIOParser.parse`. -/
structure ParsedData where
  diagram_info : DiagramInfo
  services : List Service
  connections : List Connection
  security_analysis : SecAnalysis
  raw_elements : Nat
deriving Repr

namespace DrawIOParser

/-- The `self.aws_services` pattern dictionary, in insertion order. -/
def aws_services : List (String × List String) :=
  [("ec2", ["EC2", "Amazon EC2", "Elastic Compute"]),
   ("s3", ["S3", "Amazon S3", "Simple Storage"]),
   ("lambda", ["Lambda", "AWS Lambda", "λ"]),
   ("rds", ["RDS", "Amazon RDS", "Relational Database"]),
   ("apigateway", ["API Gateway", "Amazon API Gateway"]),
   ("cloudfront", ["CloudFront", "Amazon CloudFront"]),
   ("route53", ["Route 53", "Amazon Route 53"]),
   ("elb", ["ELB", "Load Balancer", "Application Load Balancer", "Network Load Balancer"]),
   ("vpc", ["VPC", "Virtual Private Cloud"]),
   ("iam", ["IAM", "Identity and Access Management"]),
   ("cloudwatch", ["CloudWatch", "Amazon CloudWatch"]),
   ("sns", ["SNS", "Simple Notification Service"]),
   ("sqs", ["SQS", "Simple Queue Service"]),
   ("dynamodb", ["DynamoDB", "Amazon DynamoDB"]),
   ("kinesis", ["Kinesis", "Amazon Kinesis"]),
   ("elasticsearch", ["Elasticsearch", "Amazon Elasticsearch", "OpenSearch"]),
   ("redshift", ["Redshift", "Amazon Redshift"]),
   ("ecs", ["ECS", "Elastic Container Service"]),
   ("eks", ["EKS", "Elastic Kubernetes Service"]),
   ("fargate", ["Fargate", "AWS Fargate"]),
   ("secretsmanager", ["Secrets Manager", "AWS Secrets Manager"]),
   ("kms", ["KMS", "Key Management Service"]),
   ("waf", ["WAF", "Web Application Firewall"]),
   ("shield", ["Shield", "AWS Shield"]),
   ("cognito", ["Cognito", "Amazon Cognito"]),
   ("acm", ["ACM", "Certificate Manager"])]

/-- Embedding of `_identify_aws_service(text)`: first service key one of
whose lowercased patterns occurs in the lowercased text, else `None`. -/
def identify_aws_service (text : String) : Option String :=
  let text_lower := lowerStr text
  go text_lower aws_services
where
  go (tl : String) : List (String × List String) → Option String
  | [] => none
  | (service_key, patterns) :: rest =>
      if patterns.any (fun p => pyIn (lowerStr p) tl) then some service_key
      else go tl rest

/-- Embedding of `_is_security_relevant(service_type)`. -/
def is_security_relevant (service_type : String) : Bool :=
  ["iam", "kms", "secretsmanager", "waf", "shield",
   "cognito", "acm", "vpc", "s3", "ec2"].contains service_type

/-- Conversion `float(geometry.get(name, 0))`: an absent attribute
defaults to `0`; a present attribute that Python `float` rejects raises
`ValueError` (modeled via `pyFloat`). -/
def attrFloat (g : Xml) (name : String) : Except String ℚ :=
  match g.getAttr name with
  | none => .ok 0
  | some s =>
      match pyFloat s with
      | some q => .ok q
      | none => .error ("could not convert string to float: \x27" ++ s ++ "\x27")

/-- Parse the four geometry attributes in source order. -/
def parseGeom (g : Xml) : Except String Position :=
  match attrFloat g "x" with
  | .error e => .error e
  | .ok x =>
    match attrFloat g "y" with
    | .error e => .error e
    | .ok y =>
      match attrFloat g "width" with
      | .error e => .error e
      | .ok w =>
        match attrFloat g "height" with
        | .error e => .error e
        | .ok h => .ok { x := x, y := y, width := w, height := h }

/-- The cells `root.findall('.//mxCell[@value]')` returns: descendants
with tag `mxCell` carrying a `value` attribute. -/
def cellsWithValue (root : Xml) : List Xml :=
  root.descendants.filter (fun c => c.tag == "mxCell" && (c.getAttr "value").isSome)

/-- Per-cell body of the `_extract_aws_services` loop: skip cells whose
stripped value is empty or matches no service; otherwise read the
geometry of the first direct `mxGeometry` child (all-zero when absent)
and build the service record. -/
def mkService (cell : Xml) : Except String (Option Service) :=
  let value := pyStrip (pyGetD cell "value" "")
  if value == "" then .ok none
  else
    match identify_aws_service value with
    | none => .ok none
    | some service_type =>
      let geom : Except String Position :=
        match cell.children.find? (fun ch => ch.tag == "mxGeometry") with
        | none => .ok { x := 0, y := 0, width := 0, height := 0 }
        | some g => parseGeom g
      match geom with
      | .error e => .error e
      | .ok position =>
          .ok (some { id := cell.getAttr "id", type := service_type,
                      label := value, position := position,
                      style := pyGetD cell "style" "",
                      security_relevant := is_security_relevant service_type })

/-- Fold of `mkService` over the cell list; the first raised exception
aborts the whole extraction, as in Python. -/
def goServices : List Xml → Except String (List Service)
  | [] => .ok []
  | c :: rest =>
      match mkService c with
      | .error e => .error e
      | .ok none => goServices rest
      | .ok (some s) =>
          match goServices rest with
          | .error e => .error e
          | .ok l => .ok (s :: l)

/-- Embedding of `_extract_aws_services(root)`. -/
def extract_aws_services (root : Xml) : Except String (List Service) :=
  goServices (cellsWithValue root)

/-- Embedding of `_extract_connections(root)`: walk
`root.findall('.//mxCell[@edge]')` and keep cells with truthy `source`
and `target`. -/
def extract_connections (root : Xml) : List Connection :=
  (root.descendants.filter
      (fun c => c.tag == "mxCell" && (c.getAttr "edge").isSome)).filterMap
    (fun edge =>
      let source := edge.getAttr "source"
      let target := edge.getAttr "target"
      if truthy source && truthy target then
        some { id := edge.getAttr "id", source := source.getD "",
               target := target.getD "",
               label := pyStrip (pyGetD edge "value" ""),
               style := pyGetD edge "style" "" }
      else none)

/-- Embedding of `_extract_diagram_info(root)`. -/
def extract_diagram_info (root : Xml) : DiagramInfo :=
  let title :=
    match root.descendants.find? (fun d => d.tag == "diagram") with
    | none => "Unknown"
    | some d =>
        match d.getAttr "name" with
        | none => "Unknown"
        | some n => if n == "" then "Unknown" else n
  { title := title
    pages := (root.descendants.filter (fun d => d.tag == "diagram")).length
    total_elements := (root.descendants.filter (fun d => d.tag == "mxCell")).length }

/-- Marker keywords for publicly reachable services. -/
def publicMarker (s : Service) : Bool :=
  ["public", "internet", "external"].any (fun k => pyIn k (lowerStr s.label))

/-- An S3 service whose label mentions neither `private` nor
`encrypted`. -/
def unencryptedMarker (s : Service) : Bool :=
  s.type == "s3" && !(pyIn "private" (lowerStr s.label))
    && !(pyIn "encrypted" (lowerStr s.label))

/-- Embedding of `_analyze_security_configurations(services, connections)`
(the `connections` argument is accepted and unused, as in Python). -/
def analyze_security_configurations (services : List Service)
    (_connections : List Connection) : SecAnalysis :=
  { public_services := services.filter publicMarker
    unencrypted_services := services.filter unencryptedMarker
    missing_security_groups := []
    internet_facing := []
    security_service_count := (services.filter (fun s => s.security_relevant)).length }

/-- Embedding of `DrawIOParser.parse(xml_content)`, parameterized by the
external XML front-end.  An `ET.ParseError` surfaces as
`Invalid XML format: ...`; an exception in the extraction body surfaces
as `Failed to parse diagram: ...`. -/
def parse (fromstring : String → Except String Xml) (xml_content : String) :
    Except String ParsedData :=
  match fromstring xml_content with
  | .error e => .error ("Invalid XML format: " ++ e)
  | .ok root =>
      match extract_aws_services root with
      | .error e => .error ("Failed to parse diagram: " ++ e)
      | .ok services =>
          let connections := extract_connections root
          .ok { diagram_info := extract_diagram_info root
                services := services
                connections := connections
                security_analysis := analyze_security_configurations services connections
                raw_elements := (root.descendants.filter (fun d => d.tag == "mxCell")).length }

end DrawIOParser

/-! ## Security Heuristics Analyzer
Embedding of `create_fallback_analysis`, `calculate_basic_security_score`
and `generate_basic_security_issues` from
`backend/src/handlers/processor.py` (lines 97-253), plus the mock
server's canned empty-diagram result from `backend/mock_server.py`
(lines 161-192). -/

/-- One security finding dictionary. -/
structure Issue where
  severity : String
  component : String
  issue : String
  recommendation : String
  aws_service : String
deriving Repr, DecidableEq

/-- The `results.security` sub-dictionary. -/
structure SecurityResults where
  score : ℚ
  issues : List Issue
  recommendations : List String
deriving Repr

/-- The full fallback analysis dictionary (result envelope fields kept). -/
structure FallbackAnalysis where
  analysis_id : String
  status : String
  overall_score : ℚ
  security : SecurityResults
deriving Repr

/-- Embedding of `calculate_basic_security_score(services, security_analysis)`:
base 8.0, minus up to 2.0 for public services (0.5 each), minus up to 1.5
for potentially unencrypted services (0.3 each), plus up to 1.0 for
security services (0.2 each), clamped to [0, 10]; empty service lists get
the neutral 5.0. -/
def calculate_basic_security_score (services : List Service)
    (security_analysis : SecAnalysis) : ℚ :=
  if services.isEmpty then 5
  else
    let score : ℚ := 8
    let public_services := security_analysis.public_services.length
    let unencrypted_services := security_analysis.unencrypted_services.length
    let security_service_count := security_analysis.security_service_count
    let score :=
      if 0 < public_services then
        score - min 2 ((public_services : ℚ) * (1 / 2))
      else score
    let score :=
      if 0 < unencrypted_services then
        score - min (3 / 2) ((unencrypted_services : ℚ) * (3 / 10))
      else score
    let score :=
      if 0 < security_service_count then
        score + min 1 ((security_service_count : ℚ) * (1 / 5))
      else score
    max 0 (min 10 score)

/-- Embedding of `generate_basic_security_issues(services, security_analysis)`. -/
def generate_basic_security_issues (services : List Service)
    (security_analysis : SecAnalysis) : List Issue :=
  let publicIssues := security_analysis.public_services.map (fun s =>
    { severity := "HIGH", component := s.label,
      issue := "Service appears to be publicly accessible",
      recommendation := "Review public access requirements and implement appropriate security controls",
      aws_service := upperStr s.type })
  let unencryptedIssues := security_analysis.unencrypted_services.map (fun s =>
    { severity := "MEDIUM", component := s.label,
      issue := "Service may not have encryption configured",
      recommendation := "Enable encryption at rest and in transit for all data stores",
      aws_service := upperStr s.type })
  let service_types := services.map Service.type
  let iamIssues : List Issue :=
    if !service_types.contains "iam" then
      [{ severity := "MEDIUM", component := "Architecture",
         issue := "No IAM service explicitly shown in diagram",
         recommendation := "Ensure proper IAM roles and policies are configured for all services",
         aws_service := "IAM" }]
    else []
  let wafIssues : List Issue :=
    if !service_types.contains "waf"
        && services.any (fun s => s.type == "apigateway" || s.type == "elb") then
      [{ severity := "LOW", component := "Web Services",
         issue := "Web services without WAF protection",
         recommendation := "Consider implementing AWS WAF for web application protection",
         aws_service := "WAF" }]
    else []
  publicIssues ++ unencryptedIssues ++ iamIssues ++ wafIssues

/-- Embedding of `create_fallback_analysis(architecture_data)` over the
`services` and `security_analysis` entries of its argument.  Zero
services: fixed score 1.0 with a single HIGH finding; one or two
services: fixed score 3.0 with a single MEDIUM finding; three or more:
the computed score with the generated findings. -/
def create_fallback_analysis (services : List Service)
    (security_analysis : SecAnalysis) : FallbackAnalysis :=
  if services.isEmpty then
    { analysis_id := "fallback-analysis", status := "completed",
      overall_score := 1,
      security :=
        { score := 1
          issues :=
            [{ severity := "HIGH", component := "Architecture",
               issue := "No AWS services detected in diagram",
               recommendation := "Add AWS services with proper labels (e.g., \x27EC2 Instance\x27, \x27S3 Bucket\x27, \x27RDS Database\x27)",
               aws_service := "General" }]
          recommendations :=
            ["Include AWS service icons or clear service names in your diagram",
             "Add connections between services to show data flow",
             "Consider using AWS architecture icons for better recognition",
             "Review AWS Well-Architected Framework for architecture guidance"] } }
  else if services.length ≤ 2 then
    { analysis_id := "fallback-analysis", status := "completed",
      overall_score := 3,
      security :=
        { score := 3
          issues :=
            [{ severity := "MEDIUM", component := "Architecture Completeness",
               issue := "Limited services detected - may not represent complete architecture",
               recommendation := "Consider adding security services like IAM, VPC, CloudWatch for comprehensive analysis",
               aws_service := "Architecture" }]
          recommendations :=
            ["Add more AWS services to represent complete architecture",
             "Include security services (IAM, VPC, Security Groups)",
             "Show connections between services",
             "Consider adding monitoring and logging services"] } }
  else
    let security_score := calculate_basic_security_score services security_analysis
    { analysis_id := "fallback-analysis", status := "completed",
      overall_score := security_score,
      security :=
        { score := security_score
          issues := generate_basic_security_issues services security_analysis
          recommendations :=
            ["Review all public-facing services for proper security configuration",
             "Ensure all data stores are encrypted at rest and in transit",
             "Implement least privilege access controls with IAM",
             "Enable AWS CloudTrail and CloudWatch for monitoring",
             "Consider implementing AWS WAF for web applications"] } }

/-- The mock results envelope (overall score plus security block). -/
structure MockResults where
  overall_score : ℚ
  security : SecurityResults
deriving Repr

/-- The canned `mock_results` the mock server returns when the stored
description says no AWS services were detected
(`backend/mock_server.py:161-192`): score 1.0 with exactly two findings,
one HIGH and one MEDIUM. -/
def mock_results_no_services : MockResults :=
  { overall_score := 1,
    security :=
      { score := 1
        issues :=
          [{ severity := "HIGH", component := "Architecture",
             issue := "No AWS services detected in diagram",
             recommendation := "Add AWS services with proper labels (e.g., \x27EC2 Instance\x27, \x27S3 Bucket\x27, \x27RDS Database\x27)",
             aws_service := "General" },
           { severity := "MEDIUM", component := "Documentation",
             issue := "Insufficient architectural detail for comprehensive analysis",
             recommendation := "Include specific AWS service names and connections between components",
             aws_service := "Documentation" }]
        recommendations :=
          ["Include AWS service icons or clear service names in your diagram",
           "Add connections between services to show data flow",
           "Consider using AWS architecture icons for better recognition",
           "Label components with specific AWS services (e.g., \x27RDS MySQL\x27, \x27Lambda Function\x27)",
           "Review AWS Well-Architected Framework for architecture guidance"] } }

/-! ## Architecture Narrator
Embedding of `generate_architecture_description` and its helpers from
`backend/src/utils/xml_parser.py` (lines 207-415). -/

namespace DrawIOParser

/-- Embedding of `_get_service_display_name(service_type)`. -/
def get_service_display_name (service_type : String) : String :=
  let display_names : List (String × String) :=
    [("ec2", "EC2 instance"),
     ("s3", "S3 bucket"),
     ("lambda", "Lambda function"),
     ("rds", "RDS database"),
     ("apigateway", "API Gateway"),
     ("cloudfront", "CloudFront distribution"),
     ("route53", "Route 53 DNS"),
     ("elb", "Load Balancer"),
     ("vpc", "VPC network"),
     ("iam", "IAM service"),
     ("cloudwatch", "CloudWatch monitoring"),
     ("sns", "SNS notification service"),
     ("sqs", "SQS queue"),
     ("dynamodb", "DynamoDB table"),
     ("kinesis", "Kinesis stream"),
     ("elasticsearch", "Elasticsearch/OpenSearch cluster"),
     ("redshift", "Redshift data warehouse"),
     ("ecs", "ECS container service"),
     ("eks", "EKS Kubernetes cluster"),
     ("fargate", "Fargate container"),
     ("secretsmanager", "Secrets Manager"),
     ("kms", "KMS encryption service"),
     ("waf", "WAF firewall"),
     ("shield", "Shield DDoS protection"),
     ("cognito", "Cognito identity service"),
     ("acm", "Certificate Manager")]
  match display_names.find? (fun p => p.1 == service_type) with
  | some p => p.2
  | none => upperStr service_type ++ " service"

/-- Embedding of `_identify_architecture_patterns(services, connections)`:
six independent membership rules over the set of service types, all of
whose matches are appended. -/
def identify_architecture_patterns (services : List Service)
    (_connections : List Connection) : List String :=
  let service_types := services.map Service.type
  (if service_types.contains "elb" && service_types.contains "ec2" then
      ["Load-balanced web application"] else []) ++
  (if service_types.contains "lambda" && service_types.contains "apigateway" then
      ["Serverless API"] else []) ++
  (if 2 < (services.filter (fun s => s.type == "lambda")).length then
      ["Microservices architecture"] else []) ++
  (if service_types.contains "kinesis" || service_types.contains "sqs" then
      ["Event-driven processing"] else []) ++
  (if service_types.contains "cloudfront" then
      ["Content delivery network"] else []) ++
  (if ["rds", "dynamodb", "elasticsearch", "redshift"].any
        (fun d => service_types.contains d) then
      ["Multi-tier data storage"] else [])

/-- Incoming edge count of a service (connections whose target equals its
id), as accumulated by the `incoming_counts` dictionary. -/
def incomingCount (connections : List Connection) (s : Service) : Nat :=
  (connections.filter (fun c => (some c.target : Option String) == s.id)).length

/-- Outgoing edge count of a service. -/
def outgoingCount (connections : List Connection) (s : Service) : Nat :=
  (connections.filter (fun c => (some c.source : Option String) == s.id)).length

/-- Embedding of `_describe_data_flow(services, connections)`. -/
def describe_data_flow (services : List Service)
    (connections : List Connection) : String :=
  if connections.isEmpty then
    "No explicit connections defined between services."
  else
    let entry_points := (services.filter (fun s =>
      incomingCount connections s == 0 && 0 < outgoingCount connections s)).map Service.type
    let endpoints := (services.filter (fun s =>
      outgoingCount connections s == 0 && 0 < incomingCount connections s)).map Service.type
    let flow_description :=
      (if !entry_points.isEmpty then
        ["Traffic enters through " ++
          joinSep ", " (entry_points.map get_service_display_name)]
       else []) ++
      (if !endpoints.isEmpty then
        ["and flows to " ++ joinSep ", " (endpoints.map get_service_display_name)]
       else [])
    if !flow_description.isEmpty then joinSep " " flow_description ++ "."
    else
      "Complex interconnected architecture with " ++ toString connections.length ++
        " connections between services."

/-- Embedding of `_describe_security_aspects(services)`. -/
def describe_security_aspects (services : List Service) : String :=
  let service_types := services.map Service.type
  let security_aspects :=
    (if service_types.contains "iam" then ["IAM access control"] else []) ++
    (if service_types.contains "waf" then ["WAF web protection"] else []) ++
    (if service_types.contains "kms" then ["KMS encryption"] else []) ++
    (if service_types.contains "secretsmanager" then ["Secrets Manager"] else []) ++
    (if service_types.contains "cognito" then ["Cognito authentication"] else []) ++
    (if service_types.contains "vpc" then ["VPC network isolation"] else []) ++
    (if service_types.contains "cloudwatch" then ["CloudWatch monitoring"] else [])
  if security_aspects.isEmpty then
    "No explicit security services identified in the diagram."
  else "Includes " ++ joinSep ", " security_aspects ++ "."

/-- Embedding of `generate_architecture_description(parsed_data)`.  The
empty-service case short-circuits to a single sentence; otherwise the
sections (title, counts, breakdown, patterns, data flow, security
aspects) are joined by blank lines. -/
def generate_architecture_description (parsed_data : ParsedData) : String :=
  let services := parsed_data.services
  let connections := parsed_data.connections
  if services.isEmpty then
    "No AWS services were detected in the uploaded diagram. Please ensure your diagram contains AWS service components with recognizable labels."
  else
    let service_types := firstSeen (services.map Service.type)
    let countOf := fun t => (services.filter (fun s => s.type == t)).length
    let title := parsed_data.diagram_info.title
    let titleParts := if title != "Unknown" then ["**" ++ title ++ "**"] else []
    let summaryParts :=
      ["This architecture diagram contains **" ++ toString services.length ++
        " AWS services** with **" ++ toString connections.length ++
        " connections** between components."]
    let service_list := service_types.map (fun t =>
      if countOf t == 1 then "1 " ++ get_service_display_name t
      else toString (countOf t) ++ " " ++ get_service_display_name t ++ " instances")
    let services_text :=
      if 1 < service_list.length then
        joinSep ", " service_list.dropLast ++ ", and " ++ service_list.getLastD ""
      else service_list.headD ""
    let breakdownParts := ["The architecture includes: " ++ services_text ++ "."]
    let patterns := identify_architecture_patterns services connections
    let patternParts :=
      if !patterns.isEmpty then
        ["**Architecture Patterns Detected:** " ++ joinSep ", " patterns]
      else []
    let data_flow := describe_data_flow services connections
    let flowParts := if data_flow != "" then ["**Data Flow:** " ++ data_flow] else []
    let security_highlights := describe_security_aspects services
    let securityParts :=
      if security_highlights != "" then
        ["**Security Aspects:** " ++ security_highlights]
      else []
    joinSep "\n\n" (titleParts ++ summaryParts ++ breakdownParts ++ patternParts ++
      flowParts ++ securityParts)

end DrawIOParser

/-! ## Failure characterization for `DrawIOParser.parse`
Boolean predicates (over the already-parsed tree) characterizing exactly
when the extraction body raises. -/

namespace DrawIOParser

/-- A geometry attribute that is present but rejected by `float`. -/
def attrBad (g : Xml) (name : String) : Bool :=
  match g.getAttr name with
  | some s => (pyFloat s).isNone
  | none => false

/-- The first direct `mxGeometry` child carries an unparseable
x/y/width/height attribute. -/
def geomBad (cell : Xml) : Bool :=
  match cell.children.find? (fun ch => ch.tag == "mxGeometry") with
  | none => false
  | some g => ["x", "y", "width", "height"].any (fun n => attrBad g n)

/-- The cell is turned into a component: stripped non-empty label that
matches a service pattern. -/
def componentCell (cell : Xml) : Bool :=
  pyStrip (pyGetD cell "value" "") != "" &&
    (identify_aws_service (pyStrip (pyGetD cell "value" ""))).isSome

/-- The cell makes `_extract_aws_services` raise: it is a component cell
with a bad geometry attribute. -/
def badCell (cell : Xml) : Bool := componentCell cell && geomBad cell

end DrawIOParser

/-! ## Spec-side score model (claim C5)
Secondary definition following the specification's wording, to be
compared with the implementation: identical deductions, but the security
bonus counts 0.2 per **distinct** security-relevant node kind present. -/

/-- The point-deduction/bonus score exactly as the specification claim
states it. -/
def spec_score_model (services : List Service) : ℚ :=
  let p := (services.filter DrawIOParser.publicMarker).length
  let u := (services.filter DrawIOParser.unencryptedMarker).length
  let dk := (firstSeen ((services.filter
      (fun s => s.security_relevant)).map Service.type)).length
  max 0 (min 10 ((8 : ℚ) - min 2 ((p : ℚ) * (1 / 2))
    - min (3 / 2) ((u : ℚ) * (3 / 10)) + min 1 ((dk : ℚ) * (1 / 5))))

/-! ## Concrete fixtures for counterexamples and witnesses -/

/-- A well-formed document whose one `EC2` cell carries a non-numeric
geometry attribute (`x="abc"`); realizable as the XML text
`<mxfile><mxCell id="a" value="EC2"><mxGeometry x="abc"/></mxCell></mxfile>`. -/
def badGeomTree : Xml :=
  .elem "mxfile" []
    [.elem "mxCell" [("id", "a"), ("value", "EC2")]
      [.elem "mxGeometry" [("x", "abc")] []]]

/-- A well-formed document with zero components and one dangling edge. -/
def edgeOnlyTree : Xml :=
  .elem "mxfile" []
    [.elem "mxCell" [("id", "5"), ("edge", "1"), ("source", "2"), ("target", "zzz")] []]

/-- A labeled cell carrying the reserved container id `0`. -/
def cellReserved : Xml := .elem "mxCell" [("id", "0"), ("value", "EC2 Instance")] []

/-- An ordinary labeled cell. -/
def cellLabeled : Xml := .elem "mxCell" [("id", "2"), ("value", "S3 Bucket")] []

/-- A document containing a labeled reserved-id cell and a labeled
ordinary cell. -/
def reservedTree : Xml := .elem "mxfile" [] [cellReserved, cellLabeled]

/-- An edge cell whose target id `zzz` belongs to no component. -/
def danglingEdgeCell : Xml :=
  .elem "mxCell" [("id", "7"), ("source", "2"), ("target", "zzz")] []

/-- A document with one component and one edge whose target dangles. -/
def danglingTree : Xml := .elem "mxfile" [] [cellLabeled, danglingEdgeCell]

/-- An extracted `ec2` service with the given label and id (as
`_extract_aws_services` would build it for a geometry-less cell). -/
def ec2Service (i label : String) : Service :=
  { id := some i, type := "ec2", label := label,
    position := { x := 0, y := 0, width := 0, height := 0 }, style := "",
    security_relevant := DrawIOParser.is_security_relevant "ec2" }

/-- Three EC2 nodes: one security-relevant kind, three security-relevant
nodes. -/
def threeEc2 : List Service :=
  [ec2Service "1" "EC2 A", ec2Service "2" "EC2 B", ec2Service "3" "EC2 C"]

/-- An extracted load-balancer service. -/
def elbService : Service :=
  { id := some "1", type := "elb", label := "Application Load Balancer",
    position := { x := 0, y := 0, width := 0, height := 0 }, style := "",
    security_relevant := DrawIOParser.is_security_relevant "elb" }

/-- An extracted relational-database service. -/
def rdsService : Service :=
  { id := some "3", type := "rds", label := "RDS Database",
    position := { x := 0, y := 0, width := 0, height := 0 }, style := "",
    security_relevant := DrawIOParser.is_security_relevant "rds" }

/-- A three-tier service list: load balancer, compute, database. -/
def threeTier : List Service := [elbService, ec2Service "2" "EC2 Instance", rdsService]

/-- The security analysis of an empty service list. -/
def emptySecAnalysis : SecAnalysis := DrawIOParser.analyze_security_configurations [] []

/-- The parse result of an empty diagram (zero services, zero
connections). -/
def emptyParsedData : ParsedData :=
  { diagram_info := { title := "Unknown", pages := 0, total_elements := 0 }
    services := []
    connections := []
    security_analysis := emptySecAnalysis
    raw_elements := 0 }

/-! ## Helper lemmas -/

example : identify_aws_service_type "EC2 Instance" "" = "EC2" := by decide
example : identify_aws_service_type "Application Load Balancer" "" = "Load Balancer" := by decide
example : identify_aws_service_type "ALB" "" = "Load Balancer" := by decide
example : identify_aws_service_type "Amazon S3 Bucket" "" = "S3" := by decide
example : identify_aws_service_type "" "" = "Unknown" := by decide
example : identify_aws_service_type "Amazon" "" = "AWS Service" := by decide
example : identify_aws_service_type "zzz" "sketch.aws.something" = "AWS Service" := by decide

/-- After shifting an upper-case ASCII code point down by 32 the code
point survives the `Char.ofNat` round trip. -/
theorem char_ofNat_shift_toNat (t : Nat) (h1 : 65 ≤ t) (h2 : t ≤ 90) :
    (Char.ofNat (t + 32)).toNat = t + 32 := by
  interval_cases t <;> decide

/-- Lowercasing a character is idempotent. -/
theorem lowerChar_idem (c : Char) : lowerChar (lowerChar c) = lowerChar c := by
  unfold lowerChar
  by_cases h : 65 ≤ c.toNat ∧ c.toNat ≤ 90
  · rw [if_pos h, if_neg]
    rw [char_ofNat_shift_toNat c.toNat h.1 h.2]
    omega
  · rw [if_neg h, if_neg h]

/-- Lowercasing a string is idempotent. -/
theorem lowerStr_idem (s : String) : lowerStr (lowerStr s) = lowerStr s := by
  simp only [lowerStr, List.map_map]
  exact congrArg String.mk (List.map_congr_left (fun a _ => lowerChar_idem a))

/-- First-match lookup distributes over concatenation of table pieces. -/
theorem tableMatch_append (vl : String) (a b : List (List String × String)) :
    tableMatch vl (a ++ b) =
      match tableMatch vl a with
      | some k => some k
      | none => tableMatch vl b := by
  induction a with
  | nil => simp [tableMatch]
  | cons e rest ih =>
      obtain ⟨kws, kind⟩ := e
      by_cases h : kws.any (fun k => pyIn k vl) = true
      · simp [tableMatch, h]
      · simp only [Bool.not_eq_true] at h
        simp [tableMatch, h, ih]

/-- A group with no matching keyword contributes nothing. -/
theorem tableMatch_none_of_groupMiss (vl : String) (g : KwGroup)
    (h : groupMatches g vl = false) : tableMatch vl g = none := by
  induction g with
  | nil => rfl
  | cons e rest ih =>
      obtain ⟨kws, kind⟩ := e
      simp only [groupMatches, List.any_cons, Bool.or_eq_false_iff] at h
      simpa [tableMatch, h.1] using ih h.2

/-- A matching group yields some kind of that group. -/
theorem tableMatch_some_of_groupHit (vl : String) (g : KwGroup)
    (h : groupMatches g vl = true) :
    ∃ k, tableMatch vl g = some k ∧ k ∈ g.map Prod.snd := by
  induction g with
  | nil => simp [groupMatches] at h
  | cons e rest ih =>
      obtain ⟨kws, kind⟩ := e
      by_cases h1 : kws.any (fun k => pyIn k vl) = true
      · exact ⟨kind, by simp [tableMatch, h1], by simp⟩
      · simp only [groupMatches, List.any_cons] at h
        simp only [Bool.not_eq_true] at h1
        rw [h1] at h
        simp only [Bool.false_or] at h
        obtain ⟨k, hk, hmem⟩ := ih h
        exact ⟨k, by simp [tableMatch, h1, hk], by simp [hmem]⟩

/-- Over a concatenated list of groups, the first matching group decides
the looked-up kind. -/
theorem tableMatch_joinAll (vl : String) :
    ∀ (gs : List KwGroup) (i : Nat) (hi : i < gs.length),
      (∀ j (hj : j < i), groupMatches (gs.get ⟨j, Nat.lt_trans hj hi⟩) vl = false) →
      groupMatches (gs.get ⟨i, hi⟩) vl = true →
      ∃ k, tableMatch vl (joinAll gs) = some k ∧
        k ∈ (gs.get ⟨i, hi⟩).map Prod.snd := by
  intro gs
  induction gs with
  | nil => intro i hi; simp at hi
  | cons g rest ih =>
      intro i hi hskip hhit
      match i with
      | 0 =>
          obtain ⟨k, hk, hmem⟩ := tableMatch_some_of_groupHit vl g hhit
          refine ⟨k, ?_, hmem⟩
          rw [show joinAll (g :: rest) = g ++ joinAll rest from rfl,
            tableMatch_append, hk]
      | i + 1 =>
          have hg : groupMatches g vl = false := hskip 0 (Nat.succ_pos i)
          have hi' : i < rest.length := Nat.lt_of_succ_lt_succ hi
          have hskip' : ∀ j (hj : j < i),
              groupMatches (rest.get ⟨j, Nat.lt_trans hj hi'⟩) vl = false :=
            fun j hj => hskip (j + 1) (Nat.succ_lt_succ hj)
          obtain ⟨k, hk, hmem⟩ := ih i hi' hskip' hhit
          refine ⟨k, ?_, hmem⟩
          rw [show joinAll (g :: rest) = g ++ joinAll rest from rfl,
            tableMatch_append, tableMatch_none_of_groupMiss vl g hg, hk]

/-! ## Claim theorems -/

/-- C7: the classifier's result is decided by case-insensitive substring
matching against the ordered keyword table in first-match-wins order
across the category groups ordered compute, storage, database,
networking, security/identity, management/monitoring,
application-integration, analytics/ML: whenever the groups before index
`i` have no keyword occurring in the lowercased label and group `i` has
one, the returned kind is a kind of group `i`; in particular a label
matching keywords of two groups is classified by the earlier group. -/
theorem classifier_first_group_wins (value style : String) (i : Nat)
    (hi : i < serviceGroups.length)
    (hskip : ∀ j (hj : j < i),
      groupMatches (serviceGroups.get ⟨j, Nat.lt_trans hj hi⟩) (lowerStr value) = false)
    (hhit : groupMatches (serviceGroups.get ⟨i, hi⟩) (lowerStr value) = true) :
    identify_aws_service_type value style ∈
      (serviceGroups.get ⟨i, hi⟩).map Prod.snd := by
  obtain ⟨k, hk, hmem⟩ :=
    tableMatch_joinAll (lowerStr value) serviceGroups i hi hskip hhit
  have : identify_aws_service_type value style = k := by
    simp only [identify_aws_service_type, serviceTable] at hk ⊢
    rw [hk]
  rw [this]
  exact hmem

/-- Witness for C7: the label `S3 RDS Storage` matches keywords of both
the storage group (index 1) and the database group (index 2); the
classifier answers with a storage-group kind. -/
theorem classifier_first_group_wins_witness :
    identify_aws_service_type "S3 RDS Storage" "" ∈ storageGroup.map Prod.snd := by
  have hi : 1 < serviceGroups.length := by decide
  have hskip : ∀ j (hj : j < 1),
      groupMatches (serviceGroups.get ⟨j, Nat.lt_trans hj hi⟩)
        (lowerStr "S3 RDS Storage") = false := by
    intro j hj
    have hj0 : j = 0 := by omega
    subst hj0
    show groupMatches computeGroup (lowerStr "S3 RDS Storage") = false
    decide
  have hhit : groupMatches (serviceGroups.get ⟨1, hi⟩)
      (lowerStr "S3 RDS Storage") = true := by
    show groupMatches storageGroup (lowerStr "S3 RDS Storage") = true
    decide
  exact classifier_first_group_wins "S3 RDS Storage" "" 1 hi hskip hhit

/-- C8 counterexample: no keyword set matches the label `Amazon` and the
empty style hint contains no cloud-provider marker, yet the classifier
returns the generic `AWS Service` sentinel instead of `Unknown`, because
the fallback also tests the label for `amazon`. -/
theorem classifier_fallback_counterexample :
    tableMatch (lowerStr "Amazon") serviceTable = none ∧
    pyIn "aws" (lowerStr "") = false ∧
    identify_aws_service_type "Amazon" "" ≠ "Unknown" ∧
    identify_aws_service_type "Amazon" "" = "AWS Service" := by
  refine ⟨by decide, by decide, by decide, by decide⟩

/-- C8 (amended): the classifier is total, and when no keyword set
matches the label the result is the generic `AWS Service` sentinel if
and only if the lowered style hint contains `aws` **or** the lowered
label contains `amazon`, and `Unknown` otherwise; in particular
`classify("", "")` is `Unknown`. -/
theorem classifier_fallback (value style : String)
    (h : tableMatch (lowerStr value) serviceTable = none) :
    identify_aws_service_type value style =
      (if pyIn "aws" (lowerStr style) || pyIn "amazon" (lowerStr value) then
        "AWS Service" else "Unknown") ∧
    identify_aws_service_type "" "" = "Unknown" := by
  constructor
  · simp only [identify_aws_service_type]
    rw [h]
  · decide

/-- Witness for C8: instantiated at the unmatched label `Amazon` with
empty style. -/
theorem classifier_fallback_witness :
    (identify_aws_service_type "Amazon" "" =
      (if pyIn "aws" (lowerStr "") || pyIn "amazon" (lowerStr "Amazon") then
        "AWS Service" else "Unknown")) ∧
    identify_aws_service_type "" "" = "Unknown" :=
  classifier_fallback "Amazon" "" (by decide)

/-- C10: classification is invariant under lowercasing of both inputs,
since both are lowercased before any keyword matching. -/
theorem classifier_lower_invariant (value style : String) :
    identify_aws_service_type value style =
      identify_aws_service_type (lowerStr value) (lowerStr style) := by
  simp only [identify_aws_service_type, lowerStr_idem]

set_option maxRecDepth 4000 in
/-- Characterization of component extraction for one cell. -/
theorem mkComponent_eq_some_iff (cell : Xml) (c : Component) :
    mkComponent cell = some c ↔
      (pyGetD cell "value" "" ≠ "" ∧ cell.getAttr "id" ≠ some "0" ∧
        cell.getAttr "id" ≠ some "1" ∧
        c = { id := cell.getAttr "id", name := pyGetD cell "value" "",
              service_type := identify_aws_service_type (pyGetD cell "value" "")
                (pyGetD cell "style" ""),
              style := pyGetD cell "style" "" }) := by
  unfold mkComponent
  by_cases h1 : pyGetD cell "value" "" = ""
  · simp [h1]
  · by_cases h2 : cell.getAttr "id" = some "0"
    · simp [h1, h2]
    · by_cases h3 : cell.getAttr "id" = some "1"
      · simp [h1, h2, h3]
      · rw [if_pos]
        · constructor
          · intro hc
            exact ⟨h1, h2, h3, (Option.some_inj.1 hc).symm⟩
          · intro hc
            rw [hc.2.2.2]
        · simp [h1, h2, h3]

/-- Characterization of connection extraction for one cell. -/
theorem mkConnection_eq_some_iff (cell : Xml) (e : LWConnection) :
    mkConnection cell = some e ↔
      (truthy (cell.getAttr "source") = true ∧
        truthy (cell.getAttr "target") = true ∧
        e = { source := (cell.getAttr "source").getD "",
              target := (cell.getAttr "target").getD "",
              type := "connection" }) := by
  unfold mkConnection
  by_cases h1 : truthy (cell.getAttr "source") = true
  · by_cases h2 : truthy (cell.getAttr "target") = true
    · rw [if_pos]
      · constructor
        · intro hc
          exact ⟨h1, h2, (Option.some_inj.1 hc).symm⟩
        · intro hc
          rw [hc.2.2]
      · simp [h1, h2]
    · simp [h1, h2]
  · simp [h1]

/-- C2: a shape element appears as a node of the extracted graph if and
only if it carries non-empty label text and its id is not one of the two
reserved container ids `0` and `1`; moreover no extracted node ever
carries a reserved id, regardless of label content. -/
theorem reserved_id_exclusion (root cell : Xml) (h : cell ∈ lwCells root) :
    ((∃ c ∈ (parse_uploaded_xml root).components, mkComponent cell = some c) ↔
      (pyGetD cell "value" "" ≠ "" ∧ cell.getAttr "id" ≠ some "0" ∧
        cell.getAttr "id" ≠ some "1"))
    ∧ ∀ c ∈ (parse_uploaded_xml root).components,
        c.id ≠ some "0" ∧ c.id ≠ some "1" := by
  have hcomp : (parse_uploaded_xml root).components =
      (lwCells root).filterMap mkComponent := rfl
  constructor
  · constructor
    · rintro ⟨c, _, hc⟩
      obtain ⟨h1, h2, h3, _⟩ := (mkComponent_eq_some_iff cell c).1 hc
      exact ⟨h1, h2, h3⟩
    · rintro ⟨h1, h2, h3⟩
      have hsome := (mkComponent_eq_some_iff cell _).2 ⟨h1, h2, h3, rfl⟩
      refine ⟨_, ?_, hsome⟩
      rw [hcomp]
      exact List.mem_filterMap.2 ⟨cell, h, hsome⟩
  · intro c hc
    rw [hcomp] at hc
    obtain ⟨cell', _, hc'⟩ := List.mem_filterMap.1 hc
    obtain ⟨_, h2, h3, hdef⟩ := (mkComponent_eq_some_iff cell' c).1 hc'
    rw [hdef]
    exact ⟨h2, h3⟩

/-- Witness for C2: in a document whose labeled cell carries the reserved
id `0`, that cell is not among the extracted nodes (the iff instance
evaluates with a false right-hand side). -/
theorem reserved_id_exclusion_witness :
    ((∃ c ∈ (parse_uploaded_xml reservedTree).components,
        mkComponent cellReserved = some c) ↔
      (pyGetD cellReserved "value" "" ≠ "" ∧
        cellReserved.getAttr "id" ≠ some "0" ∧
        cellReserved.getAttr "id" ≠ some "1")) :=
  (reserved_id_exclusion reservedTree cellReserved (by
    rw [show lwCells reservedTree = [cellReserved, cellLabeled] from rfl]
    exact List.mem_cons_self _ _)).1

/-- C3: an element is recorded as an edge of the extracted graph if and
only if it carries both a (truthy) source and target attribute; parsing
never fails on a dangling edge reference, and an id referenced by an
edge that no labeled shape cell carries never appears among the
extracted nodes. -/
theorem edge_tolerance (root cell : Xml) (h : cell ∈ lwCells root) :
    ((∃ e ∈ (parse_uploaded_xml root).connections, mkConnection cell = some e) ↔
      (truthy (cell.getAttr "source") = true ∧
        truthy (cell.getAttr "target") = true))
    ∧ (parse_uploaded_xml root).parse_error = none
    ∧ (∀ s : String,
        (¬ ∃ cell' ∈ lwCells root,
            pyGetD cell' "value" "" ≠ "" ∧ cell'.getAttr "id" = some s) →
        ∀ c ∈ (parse_uploaded_xml root).components, c.id ≠ some s) := by
  have hcomp : (parse_uploaded_xml root).components =
      (lwCells root).filterMap mkComponent := rfl
  have hconn : (parse_uploaded_xml root).connections =
      (lwCells root).filterMap mkConnection := rfl
  refine ⟨⟨?_, ?_⟩, rfl, ?_⟩
  · rintro ⟨e, _, he⟩
    obtain ⟨h1, h2, _⟩ := (mkConnection_eq_some_iff cell e).1 he
    exact ⟨h1, h2⟩
  · rintro ⟨h1, h2⟩
    have hsome := (mkConnection_eq_some_iff cell _).2 ⟨h1, h2, rfl⟩
    refine ⟨_, ?_, hsome⟩
    rw [hconn]
    exact List.mem_filterMap.2 ⟨cell, h, hsome⟩
  · intro s hno c hc hid
    rw [hcomp] at hc
    obtain ⟨cell', hmem', hc'⟩ := List.mem_filterMap.1 hc
    obtain ⟨h1, _, _, hdef⟩ := (mkComponent_eq_some_iff cell' c).1 hc'
    refine hno ⟨cell', hmem', h1, ?_⟩
    rw [hdef] at hid
    exact hid.symm ▸ rfl

/-- Witness for C3: the dangling edge cell of `danglingTree` is an edge
(truthy source and target), and its dangling target id `zzz` is not an
extracted node id. -/
theorem edge_tolerance_witness :
    ((∃ e ∈ (parse_uploaded_xml danglingTree).connections,
        mkConnection danglingEdgeCell = some e) ↔
      (truthy (danglingEdgeCell.getAttr "source") = true ∧
        truthy (danglingEdgeCell.getAttr "target") = true)) :=
  (edge_tolerance danglingTree danglingEdgeCell (by
    rw [show lwCells danglingTree = [cellLabeled, danglingEdgeCell] from rfl]
    exact List.mem_cons_of_mem _ (List.mem_cons_self _ _))).1

/-- C9: the narrator's pattern rules are independent and all matching
patterns are reported: any graph whose node kinds include a load
balancer, a compute node and at least one database kind receives both
the `Load-balanced web application` and the `Multi-tier data storage`
patterns. -/
theorem pattern_rules_independent (services : List Service)
    (connections : List Connection)
    (hlb : "elb" ∈ services.map Service.type)
    (hec2 : "ec2" ∈ services.map Service.type)
    (hdb : ∃ t ∈ (["rds", "dynamodb", "elasticsearch", "redshift"] : List String),
        t ∈ services.map Service.type) :
    "Load-balanced web application" ∈
        DrawIOParser.identify_architecture_patterns services connections ∧
    "Multi-tier data storage" ∈
        DrawIOParser.identify_architecture_patterns services connections := by
  obtain ⟨t, htl, hts⟩ := hdb
  have he1 : (services.map Service.type).contains "elb" = true :=
    List.elem_iff.2 hlb
  have he2 : (services.map Service.type).contains "ec2" = true :=
    List.elem_iff.2 hec2
  have h1 : ((services.map Service.type).contains "elb" &&
      (services.map Service.type).contains "ec2") = true := by
    rw [he1, he2]
    rfl
  have h2 : (["rds", "dynamodb", "elasticsearch", "redshift"].any
      (fun d => (services.map Service.type).contains d)) = true := by
    refine List.any_eq_true.2 ⟨t, htl, ?_⟩
    exact List.elem_iff.2 hts
  constructor
  · simp only [DrawIOParser.identify_architecture_patterns]
    rw [if_pos h1]
    simp
  · simp only [DrawIOParser.identify_architecture_patterns]
    rw [if_pos h2]
    simp

/-- Witness for C9: the three-tier fixture (load balancer, EC2, RDS)
receives both patterns. -/
theorem pattern_rules_independent_witness :
    "Load-balanced web application" ∈
        DrawIOParser.identify_architecture_patterns threeTier [] ∧
    "Multi-tier data storage" ∈
        DrawIOParser.identify_architecture_patterns threeTier [] :=
  pattern_rules_independent threeTier []
    (by decide) (by decide) (by decide)

/-- The computed basic security score always lies in [0, 10]. -/
theorem calculate_basic_security_score_bounds (services : List Service)
    (sa : SecAnalysis) :
    0 ≤ calculate_basic_security_score services sa ∧
      calculate_basic_security_score services sa ≤ 10 := by
  unfold calculate_basic_security_score
  by_cases h : services.isEmpty = true
  · rw [if_pos h]
    norm_num
  · rw [if_neg h]
    exact ⟨le_max_left 0 _, max_le (by norm_num) (min_le_left _ _)⟩

/-- C6: for every graph, whichever size tier applies (zero components,
one or two components, or three and more), the analyzer's score lies in
the closed interval [0, 10]. -/
theorem analyzer_score_bound (services : List Service) (sa : SecAnalysis) :
    (0 ≤ (create_fallback_analysis services sa).security.score ∧
      (create_fallback_analysis services sa).security.score ≤ 10) ∧
    (0 ≤ (create_fallback_analysis services sa).overall_score ∧
      (create_fallback_analysis services sa).overall_score ≤ 10) := by
  unfold create_fallback_analysis
  by_cases h1 : services.isEmpty = true
  · rw [if_pos h1]
    norm_num
  · rw [if_neg h1]
    by_cases h2 : services.length ≤ 2
    · rw [if_pos h2]
      norm_num
    · rw [if_neg h2]
      have hb := calculate_basic_security_score_bounds services sa
      exact ⟨⟨hb.1, hb.2⟩, ⟨hb.1, hb.2⟩⟩

/-- An absent deduction (zero offending nodes) equals a deduction of the
zero-valued minimum. -/
theorem sub_min_ite (s c k : ℚ) (n : Nat) (hc : 0 ≤ c) :
    (if 0 < n then s - min c ((n : ℚ) * k) else s) = s - min c ((n : ℚ) * k) := by
  by_cases h : 0 < n
  · rw [if_pos h]
  · rw [if_neg h]
    have hn : n = 0 := by omega
    subst hn
    norm_num [min_eq_right hc]

/-- An absent bonus (zero qualifying nodes) equals a bonus of the
zero-valued minimum. -/
theorem add_min_ite (s c k : ℚ) (n : Nat) (hc : 0 ≤ c) :
    (if 0 < n then s + min c ((n : ℚ) * k) else s) = s + min c ((n : ℚ) * k) := by
  by_cases h : 0 < n
  · rw [if_pos h]
  · rw [if_neg h]
    have hn : n = 0 := by omega
    subst hn
    norm_num [min_eq_right hc]

/-- Arithmetic form of the three-or-more tier score: the guarded
deduction/bonus chain equals the unguarded formula. -/
theorem tier3_score_arith (np nu ns : Nat) :
    max 0 (min 10
      (if 0 < ns then
        (if 0 < nu then
          (if 0 < np then (8 : ℚ) - min 2 ((np : ℚ) * (1 / 2)) else 8)
            - min (3 / 2) ((nu : ℚ) * (3 / 10))
         else (if 0 < np then (8 : ℚ) - min 2 ((np : ℚ) * (1 / 2)) else 8))
          + min 1 ((ns : ℚ) * (1 / 5))
       else
        (if 0 < nu then
          (if 0 < np then (8 : ℚ) - min 2 ((np : ℚ) * (1 / 2)) else 8)
            - min (3 / 2) ((nu : ℚ) * (3 / 10))
         else (if 0 < np then (8 : ℚ) - min 2 ((np : ℚ) * (1 / 2)) else 8)))) =
    max 0 (min 10 ((8 : ℚ) - min 2 ((np : ℚ) * (1 / 2))
      - min (3 / 2) ((nu : ℚ) * (3 / 10)) + min 1 ((ns : ℚ) * (1 / 5)))) := by
  rw [sub_min_ite 8 2 (1 / 2) np (by norm_num)]
  rw [sub_min_ite ((8 : ℚ) - min 2 ((np : ℚ) * (1 / 2))) (3 / 2) (3 / 10) nu
    (by norm_num)]
  rw [add_min_ite ((8 : ℚ) - min 2 ((np : ℚ) * (1 / 2))
    - min (3 / 2) ((nu : ℚ) * (3 / 10))) 1 (1 / 5) ns (by norm_num)]

set_option maxHeartbeats 1000000 in
/-- For at least three components, the fallback analyzer's score equals
the unguarded deduction/bonus formula over per-node counts. -/
theorem fallback_score_eq (services : List Service) (connections : List Connection)
    (h : 3 ≤ services.length) :
    (create_fallback_analysis services
        (DrawIOParser.analyze_security_configurations services connections)).security.score =
      max 0 (min 10 ((8 : ℚ)
        - min 2 (((services.filter DrawIOParser.publicMarker).length : ℚ) * (1 / 2))
        - min (3 / 2)
            (((services.filter DrawIOParser.unencryptedMarker).length : ℚ) * (3 / 10))
        + min 1
            (((services.filter (fun s => s.security_relevant)).length : ℚ) * (1 / 5)))) := by
  have hne : services.isEmpty = false := by
    cases services with
    | nil => simp at h
    | cons a l => rfl
  have hgt : ¬ services.length ≤ 2 := by omega
  unfold create_fallback_analysis
  rw [hne]
  simp only [Bool.false_eq_true, if_false]
  rw [if_neg hgt]
  show calculate_basic_security_score services
      (DrawIOParser.analyze_security_configurations services connections) = _
  unfold calculate_basic_security_score
  rw [hne]
  simp only [Bool.false_eq_true, if_false]
  have hP : (DrawIOParser.analyze_security_configurations services
      connections).public_services = services.filter DrawIOParser.publicMarker := rfl
  have hU : (DrawIOParser.analyze_security_configurations services
      connections).unencrypted_services =
      services.filter DrawIOParser.unencryptedMarker := rfl
  have hS : (DrawIOParser.analyze_security_configurations services
      connections).security_service_count =
      (services.filter (fun s => s.security_relevant)).length := rfl
  rw [hP, hU, hS]
  rw [tier3_score_arith]

/-- C5 counterexample: on three EC2 nodes (three security-relevant
nodes but a single distinct security-relevant kind) the implementation's
score differs from the claim's formula: the code adds 0.2 per
security-relevant node (8.6 total), the claim 0.2 per distinct kind
(8.2 total). -/
theorem score_model_counterexample :
    (create_fallback_analysis threeEc2
        (DrawIOParser.analyze_security_configurations threeEc2 [])).security.score ≠
      spec_score_model threeEc2 := by
  have hL := fallback_score_eq threeEc2 [] (by decide)
  have hc : (threeEc2.filter DrawIOParser.publicMarker).length = 0 := by decide
  have hu : (threeEc2.filter DrawIOParser.unencryptedMarker).length = 0 := by decide
  have hs : (threeEc2.filter (fun s => s.security_relevant)).length = 3 := by decide
  have hdk : (firstSeen ((threeEc2.filter
      (fun s => s.security_relevant)).map Service.type)).length = 1 := by decide
  have hspec : spec_score_model threeEc2 =
      max 0 (min 10 ((8 : ℚ) - min 2 (((0 : ℕ) : ℚ) * (1 / 2))
        - min (3 / 2) (((0 : ℕ) : ℚ) * (3 / 10))
        + min 1 (((1 : ℕ) : ℚ) * (1 / 5)))) := by
    unfold spec_score_model
    rw [hc, hu, hdk]
  rw [hL, hc, hu, hs, hspec]
  norm_num [min_def, max_def]

/-- C5 (amended): for every graph with at least three components, the
analyzer's score equals the point-deduction/bonus model: base 8.0, minus
min(2.0, 0.5 per node whose label contains a public/external/internet
marker), minus min(1.5, 0.3 per storage node lacking private/encrypted
markers), plus min(1.0, 0.2 per security-relevant **node**, nodes of the
same kind each counted), clamped to [0, 10]. -/
theorem score_formula (services : List Service) (connections : List Connection)
    (h : 3 ≤ services.length) :
    (create_fallback_analysis services
        (DrawIOParser.analyze_security_configurations services connections)).security.score =
      max 0 (min 10 ((8 : ℚ)
        - min 2 (((services.filter DrawIOParser.publicMarker).length : ℚ) * (1 / 2))
        - min (3 / 2)
            (((services.filter DrawIOParser.unencryptedMarker).length : ℚ) * (3 / 10))
        + min 1
            (((services.filter (fun s => s.security_relevant)).length : ℚ) * (1 / 5)))) :=
  fallback_score_eq services connections h

/-- Witness for C5: the amended formula instantiated on the three-node
EC2 fixture. -/
theorem score_formula_witness :
    (create_fallback_analysis threeEc2
        (DrawIOParser.analyze_security_configurations threeEc2 [])).security.score =
      max 0 (min 10 ((8 : ℚ)
        - min 2 (((threeEc2.filter DrawIOParser.publicMarker).length : ℚ) * (1 / 2))
        - min (3 / 2)
            (((threeEc2.filter DrawIOParser.unencryptedMarker).length : ℚ) * (3 / 10))
        + min 1
            (((threeEc2.filter (fun s => s.security_relevant)).length : ℚ) * (1 / 5)))) :=
  score_formula threeEc2 [] (by decide)

/-- C4 counterexample: on the empty graph the processor's fallback
analyzer emits exactly one finding (the HIGH no-services finding), not
the two findings the claim states. -/
theorem empty_graph_findings_counterexample :
    (create_fallback_analysis [] emptySecAnalysis).security.issues.length = 1 ∧
    (create_fallback_analysis [] emptySecAnalysis).security.issues.length ≠ 2 := by
  constructor
  · rfl
  · decide

/-- C4 (amended): on the empty graph both analyzer and narrator are
total; the analyzer's score is exactly 1.0; the processor's fallback
analyzer emits exactly one HIGH no-services finding, while the mock
server variant emits the claim's two findings (HIGH no-services plus
MEDIUM insufficient-detail); the narrator returns the single
no-services sentence. -/
theorem empty_graph_totality (sa : SecAnalysis) (pd : ParsedData)
    (hpd : pd.services = []) :
    (create_fallback_analysis [] sa).security.score = 1 ∧
    (create_fallback_analysis [] sa).overall_score = 1 ∧
    (create_fallback_analysis [] sa).security.issues.map Issue.severity = ["HIGH"] ∧
    (create_fallback_analysis [] sa).security.issues.map Issue.issue =
      ["No AWS services detected in diagram"] ∧
    mock_results_no_services.security.score = 1 ∧
    mock_results_no_services.overall_score = 1 ∧
    mock_results_no_services.security.issues.map Issue.severity = ["HIGH", "MEDIUM"] ∧
    mock_results_no_services.security.issues.map Issue.issue =
      ["No AWS services detected in diagram",
       "Insufficient architectural detail for comprehensive analysis"] ∧
    DrawIOParser.generate_architecture_description pd =
      "No AWS services were detected in the uploaded diagram. Please ensure your diagram contains AWS service components with recognizable labels." := by
  refine ⟨rfl, rfl, rfl, rfl, rfl, rfl, rfl, rfl, ?_⟩
  simp only [DrawIOParser.generate_architecture_description, hpd]
  rfl

/-- Witness for C4: instantiated at the empty security analysis and the
empty parse result. -/
theorem empty_graph_totality_witness :
    (create_fallback_analysis [] emptySecAnalysis).security.score = 1 ∧
    DrawIOParser.generate_architecture_description emptyParsedData =
      "No AWS services were detected in the uploaded diagram. Please ensure your diagram contains AWS service components with recognizable labels." :=
  ⟨(empty_graph_totality emptySecAnalysis emptyParsedData rfl).1,
   (empty_graph_totality emptySecAnalysis emptyParsedData rfl).2.2.2.2.2.2.2.2⟩

/-- A list is all-negative exactly when no element tests positive. -/
theorem all_not_eq_not_any (l : List α) (f : α → Bool) :
    l.all (fun a => !f a) = !(l.any f) := by
  induction l with
  | nil => rfl
  | cons a t ih => simp [List.all_cons, List.any_cons, ih]

/-- A failing geometry conversion marks the attribute bad. -/
theorem attrBad_of_error (g : Xml) (n : String) (e : String)
    (h : DrawIOParser.attrFloat g n = .error e) : DrawIOParser.attrBad g n = true := by
  unfold DrawIOParser.attrFloat at h
  unfold DrawIOParser.attrBad
  cases hA : g.getAttr n with
  | none => rw [hA] at h; exact absurd h (by simp)
  | some s =>
      rw [hA] at h
      simp only [] at h
      cases hF : pyFloat s with
      | none => simp [hF]
      | some q => rw [hF] at h; exact absurd h (by simp)

/-- A successful geometry conversion marks the attribute good. -/
theorem attrBad_of_ok (g : Xml) (n : String) (q : ℚ)
    (h : DrawIOParser.attrFloat g n = .ok q) : DrawIOParser.attrBad g n = false := by
  unfold DrawIOParser.attrFloat at h
  unfold DrawIOParser.attrBad
  cases hA : g.getAttr n with
  | none => simp
  | some s =>
      rw [hA] at h
      simp only [] at h
      cases hF : pyFloat s with
      | none => rw [hF] at h; exact absurd h (by simp)
      | some p => simp [hF]

/-- Geometry parsing succeeds exactly when none of the four attributes
is bad. -/
theorem parseGeom_isOk (g : Xml) :
    (DrawIOParser.parseGeom g).isOk =
      !(["x", "y", "width", "height"].any (fun n => DrawIOParser.attrBad g n)) := by
  unfold DrawIOParser.parseGeom
  cases hx : DrawIOParser.attrFloat g "x" with
  | error e => simp [Except.isOk, Except.toBool, attrBad_of_error g "x" e hx]
  | ok x =>
    cases hy : DrawIOParser.attrFloat g "y" with
    | error e =>
        simp [Except.isOk, Except.toBool, attrBad_of_ok g "x" x hx, attrBad_of_error g "y" e hy]
    | ok y =>
      cases hw : DrawIOParser.attrFloat g "width" with
      | error e =>
          simp [Except.isOk, Except.toBool, attrBad_of_ok g "x" x hx, attrBad_of_ok g "y" y hy,
            attrBad_of_error g "width" e hw]
      | ok w =>
        cases hh : DrawIOParser.attrFloat g "height" with
        | error e =>
            simp [Except.isOk, Except.toBool, attrBad_of_ok g "x" x hx, attrBad_of_ok g "y" y hy,
              attrBad_of_ok g "width" w hw, attrBad_of_error g "height" e hh]
        | ok hq =>
            simp [Except.isOk, Except.toBool, attrBad_of_ok g "x" x hx, attrBad_of_ok g "y" y hy,
              attrBad_of_ok g "width" w hw, attrBad_of_ok g "height" hq hh]

/-- A non-component cell is silently skipped. -/
theorem mkService_of_not_component (cell : Xml)
    (h : DrawIOParser.componentCell cell = false) :
    DrawIOParser.mkService cell = .ok none := by
  unfold DrawIOParser.componentCell at h
  unfold DrawIOParser.mkService
  by_cases hv : (pyStrip (pyGetD cell "value" "") == "") = true
  · rw [if_pos hv]
  · rw [if_neg hv]
    cases hid : DrawIOParser.identify_aws_service (pyStrip (pyGetD cell "value" "")) with
    | none => rfl
    | some st =>
        rw [hid] at h
        simp only [bne, Option.isSome_some, Bool.and_true] at h
        exact absurd h (by simpa using hv)

/-- Extraction of one cell succeeds exactly when the cell is not bad. -/
theorem mkService_isOk (cell : Xml) :
    (DrawIOParser.mkService cell).isOk = !DrawIOParser.badCell cell := by
  unfold DrawIOParser.mkService DrawIOParser.badCell DrawIOParser.componentCell
    DrawIOParser.geomBad
  by_cases hv : (pyStrip (pyGetD cell "value" "") == "") = true
  · simp [hv, Except.isOk, Except.toBool, bne]
  · simp only [Bool.not_eq_true] at hv
    cases hid : DrawIOParser.identify_aws_service (pyStrip (pyGetD cell "value" "")) with
    | none => simp [hv, hid, Except.isOk, Except.toBool, bne]
    | some st =>
        cases hg : cell.children.find? (fun ch => ch.tag == "mxGeometry") with
        | none => simp [hv, hid, hg, Except.isOk, Except.toBool, bne]
        | some g =>
            have hpg := parseGeom_isOk g
            cases hx : DrawIOParser.parseGeom g with
            | error e =>
                rw [hx] at hpg
                simp only [Except.isOk, Except.toBool] at hpg
                have hany : (["x", "y", "width", "height"].any
                    fun n => DrawIOParser.attrBad g n) = true := by
                  cases hb : (["x", "y", "width", "height"].any
                      fun n => DrawIOParser.attrBad g n)
                  · rw [hb] at hpg; simp at hpg
                  · rfl
                simp only [List.any_cons, List.any_nil, Bool.or_eq_true] at hany
                simp [hv, hid, hg, hx, Except.isOk, Except.toBool, bne]
                rcases hany with h1 | h2 | h3 | h4 | hf
                · intro hx1; exact absurd h1 (by simp [hx1])
                · intro _ hy1; exact absurd h2 (by simp [hy1])
                · intro _ _ hw1; exact absurd h3 (by simp [hw1])
                · intro _ _ _; exact h4
                · exact absurd hf (by simp)
            | ok pos =>
                rw [hx] at hpg
                simp only [Except.isOk, Except.toBool] at hpg
                have hany : (["x", "y", "width", "height"].any
                    fun n => DrawIOParser.attrBad g n) = false := by
                  cases hb : (["x", "y", "width", "height"].any
                      fun n => DrawIOParser.attrBad g n)
                  · rfl
                  · rw [hb] at hpg; simp at hpg
                simp only [List.any_cons, List.any_nil, Bool.or_eq_false_iff] at hany
                simp [hv, hid, hg, hx, Except.isOk, Except.toBool, bne,
                  hany.1, hany.2.1, hany.2.2.1, hany.2.2.2.1]

/-- The whole extraction succeeds exactly when no cell is bad. -/
theorem goServices_isOk (cs : List Xml) :
    (DrawIOParser.goServices cs).isOk =
      cs.all (fun c => !DrawIOParser.badCell c) := by
  induction cs with
  | nil => rfl
  | cons c rest ih =>
      have hmk := mkService_isOk c
      rw [List.all_cons, ← ih, ← hmk]
      conv_lhs => rw [DrawIOParser.goServices]
      cases hm : DrawIOParser.mkService c with
      | error e => simp [Except.isOk, Except.toBool]
      | ok o =>
          cases o with
          | none => simp [Except.isOk, Except.toBool]
          | some s =>
              cases hr : DrawIOParser.goServices rest with
              | error e => simp [Except.isOk, Except.toBool]
              | ok l => simp [Except.isOk, Except.toBool]

/-- With no component cells at all, the extraction returns the empty
service list. -/
theorem goServices_empty (cs : List Xml)
    (h : cs.all (fun c => !DrawIOParser.componentCell c) = true) :
    DrawIOParser.goServices cs = .ok [] := by
  induction cs with
  | nil => rfl
  | cons c rest ih =>
      rw [List.all_cons, Bool.and_eq_true] at h
      have hc : DrawIOParser.componentCell c = false := by
        have := h.1
        cases hb : DrawIOParser.componentCell c
        · rfl
        · rw [hb] at this; simp at this
      unfold DrawIOParser.goServices
      rw [mkService_of_not_component c hc]
      exact ih h.2

/-- C1 counterexample: a well-formed document (the front-end succeeds on
it) on which `parse` nevertheless raises: the recognized `EC2` cell
carries the geometry attribute `x="abc"`, which `float` rejects, so the
typed error is raised with the `Failed to parse diagram` message even
though the markup is well-formed. -/
theorem parse_wellformed_failure_counterexample :
    ((fun (_ : String) => (Except.ok badGeomTree : Except String Xml)) "doc").isOk = true ∧
    (DrawIOParser.parse (fun _ => Except.ok badGeomTree) "doc").isOk = false ∧
    DrawIOParser.parse (fun _ => Except.ok badGeomTree) "doc" =
      .error "Failed to parse diagram: could not convert string to float: \x27abc\x27" := by
  refine ⟨rfl, rfl, rfl⟩

/-- C1 (amended): `parse` fails exactly when the XML front-end rejects
the input (the typed error then preserves the front-end's message after
`Invalid XML format: `) **or** when a recognized component cell carries
a geometry attribute that `float` rejects; for every well-formed
document with zero components, `parse` succeeds with an empty service
list. -/
theorem parse_failure_characterization
    (fromstring : String → Except String Xml) (content : String) :
    (∀ e, fromstring content = .error e →
      DrawIOParser.parse fromstring content = .error ("Invalid XML format: " ++ e)) ∧
    (∀ root, fromstring content = .ok root →
      ((DrawIOParser.parse fromstring content).isOk = false ↔
        (DrawIOParser.cellsWithValue root).any DrawIOParser.badCell = true)) ∧
    (∀ root, fromstring content = .ok root →
      (DrawIOParser.cellsWithValue root).all
        (fun c => !DrawIOParser.componentCell c) = true →
      ∃ r, DrawIOParser.parse fromstring content = .ok r ∧ r.services = []) := by
  have hstep : ∀ root, fromstring content = .ok root →
      DrawIOParser.parse fromstring content =
        match DrawIOParser.extract_aws_services root with
        | .error e => .error ("Failed to parse diagram: " ++ e)
        | .ok services =>
            .ok { diagram_info := DrawIOParser.extract_diagram_info root
                  services := services
                  connections := DrawIOParser.extract_connections root
                  security_analysis := DrawIOParser.analyze_security_configurations
                    services (DrawIOParser.extract_connections root)
                  raw_elements := (root.descendants.filter
                    (fun d => d.tag == "mxCell")).length } := by
    intro root hr
    unfold DrawIOParser.parse
    rw [hr]
  refine ⟨?_, ?_, ?_⟩
  · intro e he
    unfold DrawIOParser.parse
    rw [he]
  · intro root hr
    rw [hstep root hr]
    have hgo : (DrawIOParser.extract_aws_services root).isOk =
        !(DrawIOParser.cellsWithValue root).any DrawIOParser.badCell := by
      have h := goServices_isOk (DrawIOParser.cellsWithValue root)
      rw [all_not_eq_not_any] at h
      exact h
    cases hx : DrawIOParser.extract_aws_services root with
    | error e =>
        rw [hx] at hgo
        simp only [Except.isOk, Except.toBool] at hgo
        have hany : (DrawIOParser.cellsWithValue root).any DrawIOParser.badCell = true := by
          cases hb : (DrawIOParser.cellsWithValue root).any DrawIOParser.badCell
          · rw [hb] at hgo; simp at hgo
          · rfl
        simp [Except.isOk, Except.toBool, hany]
    | ok l =>
        rw [hx] at hgo
        simp only [Except.isOk, Except.toBool] at hgo
        have hany : (DrawIOParser.cellsWithValue root).any DrawIOParser.badCell = false := by
          cases hb : (DrawIOParser.cellsWithValue root).any DrawIOParser.badCell
          · rfl
          · rw [hb] at hgo; simp at hgo
        simp [Except.isOk, Except.toBool, hany]
  · intro root hr hall
    have h0 : DrawIOParser.extract_aws_services root = .ok [] :=
      goServices_empty _ hall
    rw [hstep root hr, h0]
    exact ⟨_, rfl, rfl⟩

/-- Witness for C1: on a well-formed document containing only a dangling
edge (zero components), `parse` succeeds and returns no services. -/
theorem parse_failure_characterization_witness :
    ∃ r, DrawIOParser.parse (fun _ => Except.ok edgeOnlyTree) "doc" = .ok r ∧
      r.services = [] :=
  (parse_failure_characterization (fun _ => Except.ok edgeOnlyTree) "doc").2.2
    edgeOnlyTree rfl (by decide)
